import Mathlib

/-!
Verification of the batch-elution multi-objective optimization example
(`src/optimization_multi.py`).

The script configures an `OptimizationProblem` (variables, one linear
constraint, an evaluator chain of a process simulator and a fractionation
optimizer, three maximized objectives with two components each, and a
plotting callback), then runs the `U_NSGA3` optimizer with
`use_checkpoint=True`.  The configuration calls are embedded directly from
the source; the behaviour of the external CADETProcess library (registry
error contract, evaluator-chain failure policy, optimizer driver loop,
checkpoint resume) is modelled from the specification, as the library code
is not part of this repository.
-/

namespace BatchElution

/-- A decision variable: unique name with finite bounds, `lb < ub`. -/
structure Variable where
  name : String
  lb : Int
  ub : Int
deriving DecidableEq, Repr

/-- A linear constraint `sum coef_i * var_i <= 0` over named variables. -/
structure LinearConstraint where
  names : List String
  coefficients : List Int
deriving DecidableEq, Repr

/-- Keyword configuration of the fractionation evaluator stage, as passed at
`add_evaluator(frac_opt, kwargs=...)` in the script. -/
structure FracKwargs where
  purity_required : List Rat
  ignore_failed : Bool
  allow_empty_fractions : Bool
deriving DecidableEq, Repr

/-- An evaluator stage registration: stage name plus optional keyword
configuration (only the fractionation stage carries kwargs in this script). -/
structure EvaluatorReg where
  name : String
  kwargs : Option FracKwargs
deriving DecidableEq, Repr

/-- An objective registration: metric name, number of scalar outputs,
required evaluator stages (ordered), and the minimize/maximize flag. -/
structure Objective where
  name : String
  n_objectives : Nat
  requires : List String
  minimize : Bool
deriving DecidableEq, Repr

/-- A callback registration: function name plus required evaluator stages. -/
structure CallbackReg where
  name : String
  requires : List String
deriving DecidableEq, Repr

/-- Modelled from the spec: the configuration error taxonomy of the
Variable/Constraint Registry (section 4.1); the registry implementation
lives in the external CADETProcess library, absent from `src/`. -/
inductive ConfigError where
  | duplicateName : String → ConfigError
  | invalidBounds : String → ConfigError
  | unknownVariable : String → ConfigError
  | lengthMismatch : ConfigError
deriving DecidableEq, Repr

/-- The optimization problem: registry, evaluator chain, objective set,
callbacks, mirroring the aggregation described in the spec. -/
structure OptimizationProblem where
  name : String
  decision_variables : List Variable
  linear_constraints : List LinearConstraint
  evaluators : List EvaluatorReg
  objectives : List Objective
  callbacks : List CallbackReg
deriving DecidableEq, Repr

/-- `OptimizationProblem('batch_elution_multi')`: a fresh problem. -/
def OptimizationProblem.make (name : String) : OptimizationProblem :=
  { name := name, decision_variables := [], linear_constraints := [],
    evaluators := [], objectives := [], callbacks := [] }

/-- Whether a variable name is already registered. -/
def OptimizationProblem.hasVar (p : OptimizationProblem) (name : String) : Bool :=
  p.decision_variables.any (fun v => v.name == name)

/-- Modelled from the spec: `add_variable(name, lb, ub)` fails with
`DuplicateNameError` if the name is already registered, `InvalidBoundsError`
if `lb >= ub`; otherwise appends to the ordered variable list. -/
def OptimizationProblem.add_variable (p : OptimizationProblem)
    (name : String) (lb ub : Int) : Except ConfigError OptimizationProblem :=
  if p.hasVar name then
    .error (.duplicateName name)
  else if lb ≥ ub then
    .error (.invalidBounds name)
  else
    .ok { p with decision_variables := p.decision_variables ++ [⟨name, lb, ub⟩] }

/-- Modelled from the spec: `add_linear_constraint(names, coefficients)`
fails with `LengthMismatchError` if the two lists differ in length,
`UnknownVariableError` if any name is unregistered; otherwise appends to
the ordered constraint list. -/
def OptimizationProblem.add_linear_constraint (p : OptimizationProblem)
    (names : List String) (coefficients : List Int) :
    Except ConfigError OptimizationProblem :=
  if names.length ≠ coefficients.length then
    .error .lengthMismatch
  else
    match names.find? (fun n => !(p.hasVar n)) with
    | some n => .error (.unknownVariable n)
    | none => .ok { p with linear_constraints := p.linear_constraints ++ [⟨names, coefficients⟩] }

/-- `add_evaluator` appends a stage; stages execute in append order. -/
def OptimizationProblem.add_evaluator (p : OptimizationProblem)
    (name : String) (kwargs : Option FracKwargs) : OptimizationProblem :=
  { p with evaluators := p.evaluators ++ [⟨name, kwargs⟩] }

/-- `add_objective` appends an objective in registration order. -/
def OptimizationProblem.add_objective (p : OptimizationProblem)
    (o : Objective) : OptimizationProblem :=
  { p with objectives := p.objectives ++ [o] }

/-- `add_callback` appends a callback registration. -/
def OptimizationProblem.add_callback (p : OptimizationProblem)
    (c : CallbackReg) : OptimizationProblem :=
  { p with callbacks := p.callbacks ++ [c] }

/-- The fractionation kwargs passed in the script:
`purity_required=[0.95, 0.95]`, `ignore_failed=False`,
`allow_empty_fractions=False`. -/
def scriptFracKwargs : FracKwargs :=
  { purity_required := [(0.95 : Rat), (0.95 : Rat)],
    ignore_failed := false,
    allow_empty_fractions := false }

/-- The `Productivity` objective as registered in the script. -/
def productivity : Objective :=
  ⟨"Productivity", 2, ["process_simulator", "frac_opt"], false⟩

/-- The `Recovery` objective as registered in the script. -/
def recovery : Objective :=
  ⟨"Recovery", 2, ["process_simulator", "frac_opt"], false⟩

/-- The `EluentConsumption` objective as registered in the script. -/
def eluent_consumption : Objective :=
  ⟨"EluentConsumption", 2, ["process_simulator", "frac_opt"], false⟩

/-- The full configuration sequence of `optimization_multi.py`, in source
order: two variables, one linear constraint, two evaluators, three
objectives, one callback. -/
def scriptProblem : Except ConfigError OptimizationProblem := do
  let p := OptimizationProblem.make "batch_elution_multi"
  let p ← p.add_variable "cycle_time" 10 600
  let p ← p.add_variable "feed_duration.time" 10 300
  let p ← p.add_linear_constraint ["feed_duration.time", "cycle_time"] [1, -1]
  let p := p.add_evaluator "process_simulator" none
  let p := p.add_evaluator "frac_opt" (some scriptFracKwargs)
  let p := p.add_objective productivity
  let p := p.add_objective recovery
  let p := p.add_objective eluent_consumption
  let p := p.add_callback ⟨"callback", ["process_simulator", "frac_opt"]⟩
  return p

/-- The fully configured problem value the script builds. -/
def scriptProblemValue : OptimizationProblem :=
  { name := "batch_elution_multi",
    decision_variables := [⟨"cycle_time", 10, 600⟩, ⟨"feed_duration.time", 10, 300⟩],
    linear_constraints := [⟨["feed_duration.time", "cycle_time"], [1, -1]⟩],
    evaluators := [⟨"process_simulator", none⟩, ⟨"frac_opt", some scriptFracKwargs⟩],
    objectives := [productivity, recovery, eluent_consumption],
    callbacks := [⟨"callback", ["process_simulator", "frac_opt"]⟩] }

/-- The `U_NSGA3` optimizer settings assigned in the script. -/
structure U_NSGA3Config where
  n_max_gen : Nat
  pop_size : Nat
  n_cores : Nat
deriving DecidableEq, Repr

/-- `optimizer.n_max_gen = 3; optimizer.pop_size = 3; optimizer.n_cores = 3`. -/
def optimizer : U_NSGA3Config := ⟨3, 3, 3⟩

example : scriptProblem = .ok scriptProblemValue := rfl

/-- Modelled from the spec: `evaluate_all` concatenates each objective's
scalar outputs in registration order, negating the values of objectives
registered with `minimize=False` so the optimizer always minimizes
internally (section 4.3); the implementation lives in the external
CADETProcess library, absent from `src/`. -/
def evaluate_all (objectives : List Objective) (raw : String → List Rat) : List Rat :=
  objectives.flatMap
    (fun o => if o.minimize then raw o.name else (raw o.name).map (fun x => -x))

/-- Pareto domination between internal (minimized) objective vectors:
pointwise no worse and strictly better somewhere. -/
def dominates (a b : List Rat) : Prop :=
  a.length = b.length
    ∧ (∀ i < a.length, a.getD i 0 ≤ b.getD i 0)
    ∧ ∃ i < a.length, a.getD i 0 < b.getD i 0

instance (a b : List Rat) : Decidable (dominates a b) := by
  unfold dominates; infer_instance

/-- Modelled from the spec: Finalize extracts the non-dominated front of the
final population (section 4.5 / glossary). -/
def paretoFront (P : List (List Rat)) : List (List Rat) :=
  P.filter (fun b => decide (∀ a ∈ P, ¬ dominates a b))

/-- Modelled from the spec: the Evaluate → Select/Evolve loop of the
Optimizer Driver evaluates every candidate of the current population in
each generation, then evolves it; this returns the population evaluated at
each of the `n` generations. -/
def generationPopulations (evolve : List (List Rat) → List (List Rat)) :
    Nat → List (List Rat) → List (List (List Rat))
  | 0, _ => []
  | n + 1, pop => pop :: generationPopulations evolve n (evolve pop)

/-- A persisted optimizer snapshot: population plus generation counter. -/
structure Checkpoint where
  population : List (List Rat)
  generation : Nat
deriving DecidableEq, Repr

/-- Modelled from the spec: Init resumes population and generation counter
from a prior checkpoint when `use_checkpoint=True` and one exists;
otherwise it seeds a fresh population at generation 0 (section 4.5). -/
def initState (use_checkpoint : Bool) (prior : Option Checkpoint)
    (seed : List (List Rat)) : Checkpoint :=
  match use_checkpoint, prior with
  | true, some cp => cp
  | _, _ => ⟨seed, 0⟩

/-- Modelled from the spec: each generation boundary persists a checkpoint
carrying the evolved population and the incremented generation counter. -/
def persistedCheckpoints (evolve : List (List Rat) → List (List Rat)) :
    Nat → Checkpoint → List Checkpoint
  | 0, _ => []
  | fuel + 1, s =>
    let s' : Checkpoint := ⟨evolve s.population, s.generation + 1⟩
    s' :: persistedCheckpoints evolve fuel s'

/-- The checkpoints persisted by a driver run from state `s` up to
generation `n_max`. -/
def driverCheckpoints (evolve : List (List Rat) → List (List Rat))
    (n_max : Nat) (s : Checkpoint) : List Checkpoint :=
  persistedCheckpoints evolve (n_max - s.generation) s

/-- Modelled from the spec: the per-candidate evaluation error (section 7). -/
inductive EvalError where
  | evaluationFailed : String → EvalError
deriving DecidableEq, Repr

/-- A stage's contribution to the result set: a value, or the sentinel
infeasible marker. -/
inductive StageOutput (α : Type) where
  | ok : α → StageOutput α
  | infeasible : StageOutput α
deriving DecidableEq, Repr

/-- Modelled from the spec: the fractionation stage's partial-failure
policy — with `ignore_failed` set, a failing candidate yields the sentinel
infeasible marker rather than propagating; otherwise the stage error
propagates wrapped as `EvaluationFailedError` (sections 4.2/7); the stage
implementation lives in the external CADETProcess library. -/
def runFractionationStage {α : Type} (kw : FracKwargs)
    (result : Except String α) : Except EvalError (StageOutput α) :=
  match result with
  | .ok a => .ok (.ok a)
  | .error msg =>
    if kw.ignore_failed then .ok .infeasible
    else .error (.evaluationFailed msg)

/-- Outcome of evaluating one candidate: its objective vector plus the side
effects (files written) produced by observer callbacks. -/
structure EvalOutcome where
  objective_vector : List Rat
  side_effects : List String
deriving DecidableEq, Repr

/-- Modelled from the spec: candidate evaluation followed by synchronous,
side-effect-only observer callbacks whose return values are never consumed
(section 9); the callback dispatch lives in the external CADETProcess
library. -/
def evaluateWithCallbacks (objVec : List Rat → List Rat)
    (cbs : List (List Rat → String)) (x : List Rat) : EvalOutcome :=
  { objective_vector := objVec x, side_effects := cbs.map (fun cb => cb x) }

/-- The script's callback body: it plots the fraction signal to a file
named `callbacks_dir / individual.id _ evaluation_object _fractionation.png`
and returns nothing that is consumed; here we model the file name it
produces. -/
def callback (callbacks_dir individual_id evaluation_object : String) : String :=
  callbacks_dir ++ "/" ++ individual_id ++ "_" ++ evaluation_object
    ++ "_fractionation.png"

/-- A Python runtime error relevant to the module top level. -/
inductive PyError where
  | nameError : String → PyError
deriving DecidableEq, Repr

/-- The top-level statements of `optimization_multi.py` in source order:
the configuration block, the `__main__`-guarded `optimizer.optimize` call
binding `optimization_results`, then four unguarded statements that read
`optimization_results`. -/
inductive Stmt where
  | configure
  | guardedOptimize
  | printX
  | printF
  | plotConvergence
  | plotObjectives
deriving DecidableEq, Repr

/-- Module execution state: whether `optimization_results` is bound, and
how many times `optimizer.optimize` has run. -/
structure ModuleState where
  results_bound : Bool
  optimize_calls : Nat
deriving DecidableEq, Repr

/-- One top-level statement: the guard runs `optimize` only under
`__name__ == '__main__'`; the result statements raise `NameError` when
`optimization_results` is unbound. -/
def execStmt (isMain : Bool) (s : ModuleState) : Stmt → Except PyError ModuleState
  | .configure => .ok s
  | .guardedOptimize =>
    if isMain then .ok { results_bound := true, optimize_calls := s.optimize_calls + 1 }
    else .ok s
  | .printX | .printF | .plotConvergence | .plotObjectives =>
    if s.results_bound then .ok s else .error (.nameError "optimization_results")

/-- The module's top-level statement list, in source order. -/
def moduleStmts : List Stmt :=
  [.configure, .guardedOptimize, .printX, .printF, .plotConvergence, .plotObjectives]

/-- Run statements in order, stopping at the first error. -/
def runStmts (isMain : Bool) : List Stmt → ModuleState → ModuleState × Option PyError
  | [], s => (s, none)
  | st :: rest, s =>
    match execStmt isMain s st with
    | .ok s' => runStmts isMain rest s'
    | .error e => (s, some e)

/-- Executing the module top to bottom; `isMain` is whether the file is run
directly (`__name__ == '__main__'`) rather than imported. -/
def runModule (isMain : Bool) : ModuleState × Option PyError :=
  runStmts isMain moduleStmts ⟨false, 0⟩

/-- The objective vector's length is the sum of the registered
`n_objectives`, provided every objective's raw output has its declared
arity. -/
theorem evaluate_all_length (objectives : List Objective) (raw : String → List Rat)
    (h : ∀ o ∈ objectives, (raw o.name).length = o.n_objectives) :
    (evaluate_all objectives raw).length
      = (objectives.map (fun o => o.n_objectives)).sum := by
  induction objectives with
  | nil => rfl
  | cons o os ih =>
    have ho := h o (by simp)
    have hos : ∀ o' ∈ os, (raw o'.name).length = o'.n_objectives :=
      fun o' h' => h o' (by simp [h'])
    simp only [evaluate_all, List.flatMap_cons, List.length_append,
      List.map_cons, List.sum_cons]
    have htail : (os.flatMap
        (fun o => if o.minimize then raw o.name else (raw o.name).map (fun x => -x))).length
        = (os.map (fun o => o.n_objectives)).sum := ih hos
    rw [htail]
    by_cases hm : o.minimize <;> simp [hm, ho]

/-- No vector dominates itself. -/
theorem dominates_irrefl (a : List Rat) : ¬ dominates a a := by
  rintro ⟨-, -, i, -, hlt⟩
  exact lt_irrefl _ hlt

/-- Pareto domination is transitive. -/
theorem dominates_trans {a b c : List Rat}
    (hab : dominates a b) (hbc : dominates b c) : dominates a c := by
  obtain ⟨hl1, hle1, i, hi, hlt⟩ := hab
  obtain ⟨hl2, hle2, -⟩ := hbc
  refine ⟨hl1.trans hl2, ?_, i, hi, ?_⟩
  · intro j hj
    exact (hle1 j hj).trans (hle2 j (hl1 ▸ hj))
  · exact lt_of_lt_of_le hlt (hle2 i (hl1 ▸ hi))

/-- Every nonempty finite population has a non-dominated member. -/
theorem exists_nondominated (P : List (List Rat)) (h : P ≠ []) :
    ∃ b ∈ P, ∀ a ∈ P, ¬ dominates a b := by
  induction P with
  | nil => exact absurd rfl h
  | cons x xs ih =>
    cases xs with
    | nil =>
      refine ⟨x, by simp, ?_⟩
      intro a ha
      rw [List.mem_singleton] at ha
      subst ha
      exact dominates_irrefl a
    | cons y ys =>
      obtain ⟨b, hb, hmin⟩ := ih (by simp)
      by_cases hx : dominates x b
      · refine ⟨x, by simp, ?_⟩
        intro a ha hax
        rcases List.mem_cons.mp ha with rfl | ha'
        · exact dominates_irrefl a hax
        · exact hmin a ha' (dominates_trans hax hx)
      · refine ⟨b, List.mem_cons_of_mem _ hb, ?_⟩
        intro a ha
        rcases List.mem_cons.mp ha with rfl | ha'
        · exact hx
        · exact hmin a ha'

/-- The non-dominated front of a nonempty population is nonempty. -/
theorem paretoFront_ne_nil (P : List (List Rat)) (h : P ≠ []) :
    paretoFront P ≠ [] := by
  obtain ⟨b, hb, hmin⟩ := exists_nondominated P h
  have hmem : b ∈ paretoFront P := by
    refine List.mem_filter.mpr ⟨hb, ?_⟩
    exact decide_eq_true (by intro a ha; exact hmin a ha)
  exact List.ne_nil_of_mem hmem

/-- The front never exceeds the population in size. -/
theorem paretoFront_length_le (P : List (List Rat)) :
    (paretoFront P).length ≤ P.length :=
  List.length_filter_le _ P

/-- With a size-preserving evolution operator, every generation's evaluated
population has the seed's size. -/
theorem generationPopulations_sizes
    (evolve : List (List Rat) → List (List Rat))
    (hpres : ∀ p, (evolve p).length = p.length) :
    ∀ (n : Nat) (pop : List (List Rat)),
      (generationPopulations evolve n pop).map List.length
        = List.replicate n pop.length := by
  intro n
  induction n with
  | zero => intro pop; rfl
  | succ m ih =>
    intro pop
    simp only [generationPopulations, List.map_cons, ih (evolve pop),
      hpres pop, List.replicate_succ]

/-- The persisted generation counters from state `s` are
`s.generation + 1, …, s.generation + fuel`. -/
theorem persistedCheckpoints_generations
    (evolve : List (List Rat) → List (List Rat)) :
    ∀ (fuel : Nat) (s : Checkpoint),
      (persistedCheckpoints evolve fuel s).map (fun c => c.generation)
        = List.range' (s.generation + 1) fuel := by
  intro fuel
  induction fuel with
  | zero => intro s; rfl
  | succ m ih =>
    intro s
    simp only [persistedCheckpoints, List.map_cons, ih, List.range'_succ]

/-- C1: the problem registers exactly the variables `cycle_time ∈ [10,600]`
and `feed_duration.time ∈ [10,300]` and one linear constraint over
`[feed_duration.time, cycle_time]` with coefficients `[1, -1]`; the
optimizer runs population size 3 for 3 generations, so every generation
evaluates exactly 3 candidates and the run ends with a non-empty
non-dominated front of size at most 3. -/
theorem c1_configuration_and_front :
    scriptProblem = .ok scriptProblemValue
    ∧ scriptProblemValue.decision_variables
        = [⟨"cycle_time", 10, 600⟩, ⟨"feed_duration.time", 10, 300⟩]
    ∧ scriptProblemValue.linear_constraints
        = [⟨["feed_duration.time", "cycle_time"], [1, -1]⟩]
    ∧ optimizer.pop_size = 3
    ∧ optimizer.n_max_gen = 3
    ∧ (∀ (evolve : List (List Rat) → List (List Rat)) (seed : List (List Rat)),
        (∀ p, (evolve p).length = p.length) → seed.length = optimizer.pop_size →
        (generationPopulations evolve optimizer.n_max_gen seed).map List.length
          = List.replicate optimizer.n_max_gen optimizer.pop_size)
    ∧ (∀ P : List (List Rat), P.length = optimizer.pop_size →
        paretoFront P ≠ [] ∧ (paretoFront P).length ≤ optimizer.pop_size) := by
  refine ⟨rfl, rfl, rfl, rfl, rfl, ?_, ?_⟩
  · intro evolve seed hpres hseed
    rw [generationPopulations_sizes evolve hpres, hseed]
  · intro P hP
    refine ⟨paretoFront_ne_nil P ?_, ?_⟩
    · intro hnil
      rw [hnil] at hP
      exact absurd hP (by decide)
    · rw [← hP]
      exact paretoFront_length_le P

theorem c1_configuration_and_front_witness :
    (generationPopulations (fun p => p) optimizer.n_max_gen
        [[(0 : Rat)], [0], [0]]).map List.length
      = List.replicate optimizer.n_max_gen optimizer.pop_size
    ∧ paretoFront [[(1 : Rat)], [2], [3]] ≠ []
    ∧ (paretoFront [[(1 : Rat)], [2], [3]]).length ≤ optimizer.pop_size := by
  obtain ⟨-, -, -, -, -, hgen, hfront⟩ := c1_configuration_and_front
  exact ⟨hgen (fun p => p) [[(0 : Rat)], [0], [0]] (fun p => rfl) rfl,
    (hfront [[(1 : Rat)], [2], [3]] rfl).1,
    (hfront [[(1 : Rat)], [2], [3]] rfl).2⟩

/-- C2: for every candidate, the objective vector's length equals the sum
of the registered `n_objectives`; the three objectives each register
`n_objectives = 2`, so every candidate's objective vector has length 6. -/
theorem c2_objective_vector_length (raw : String → List Rat)
    (h : ∀ o ∈ scriptProblemValue.objectives, (raw o.name).length = o.n_objectives) :
    (evaluate_all scriptProblemValue.objectives raw).length
      = (scriptProblemValue.objectives.map (fun o => o.n_objectives)).sum
    ∧ (evaluate_all scriptProblemValue.objectives raw).length = 6 := by
  have hlen := evaluate_all_length _ raw h
  exact ⟨hlen, by rw [hlen]; rfl⟩

theorem c2_objective_vector_length_witness :
    (evaluate_all scriptProblemValue.objectives (fun _ => [0, 0])).length = 6 :=
  (c2_objective_vector_length (fun _ => [0, 0]) (by decide)).2

/-- C3: the evaluator chain is `[process_simulator, frac_opt]` in append
order, and every registered objective's required stages appear within it
in the same relative order (here each `requires` equals the whole chain). -/
theorem c3_requires_subchain :
    scriptProblemValue.evaluators.map (fun e => e.name)
      = ["process_simulator", "frac_opt"]
    ∧ ∀ o ∈ scriptProblemValue.objectives,
        List.Sublist o.requires (scriptProblemValue.evaluators.map (fun e => e.name)) := by
  refine ⟨rfl, ?_⟩
  intro o ho
  have hcases : o = productivity ∨ o = recovery ∨ o = eluent_consumption := by
    simpa [scriptProblemValue] using ho
  rcases hcases with rfl | rfl | rfl <;> exact List.Sublist.refl _

theorem c3_requires_subchain_witness :
    List.Sublist productivity.requires
      (scriptProblemValue.evaluators.map (fun e => e.name)) :=
  c3_requires_subchain.2 productivity (by decide)

/-- C4: all three objectives are registered with `minimize = False`, and
`evaluate_all` concatenates the raw outputs in registration order while
negating every value, so the optimizer internally minimizes the negated
values of all six components. -/
theorem c4_maximize_negation :
    (∀ o ∈ scriptProblemValue.objectives, o.minimize = false)
    ∧ ∀ raw : String → List Rat,
        evaluate_all scriptProblemValue.objectives raw
          = (scriptProblemValue.objectives.flatMap (fun o => raw o.name)).map
              (fun x => -x) := by
  constructor
  · intro o ho
    have hcases : o = productivity ∨ o = recovery ∨ o = eluent_consumption := by
      simpa [scriptProblemValue] using ho
    rcases hcases with rfl | rfl | rfl <;> rfl
  · intro raw
    simp [evaluate_all, scriptProblemValue, productivity, recovery,
      eluent_consumption]

theorem c4_maximize_negation_witness :
    productivity.minimize = false
    ∧ evaluate_all scriptProblemValue.objectives (fun _ => [1, 2])
      = (scriptProblemValue.objectives.flatMap (fun _ => [(1 : Rat), 2])).map
          (fun x => -x) :=
  ⟨c4_maximize_negation.1 productivity (by decide),
    c4_maximize_negation.2 (fun _ => [1, 2])⟩

/-- C5: the registry error contract — duplicate names, inverted bounds,
unknown constraint names and mismatched list lengths each fail with the
corresponding error — and the script's configuration sequence satisfies
every precondition, so it raises none of them. -/
theorem c5_registry_error_contract :
    (∀ (p : OptimizationProblem) (name : String) (lb ub : Int),
        p.hasVar name = true →
        p.add_variable name lb ub = .error (.duplicateName name))
    ∧ (∀ (p : OptimizationProblem) (name : String) (lb ub : Int),
        p.hasVar name = false → lb ≥ ub →
        p.add_variable name lb ub = .error (.invalidBounds name))
    ∧ (∀ (p : OptimizationProblem) (names : List String) (coefficients : List Int),
        names.length ≠ coefficients.length →
        p.add_linear_constraint names coefficients = .error .lengthMismatch)
    ∧ (∀ (p : OptimizationProblem) (names : List String) (coefficients : List Int),
        names.length = coefficients.length →
        (∃ n ∈ names, p.hasVar n = false) →
        ∃ n ∈ names, p.hasVar n = false
          ∧ p.add_linear_constraint names coefficients = .error (.unknownVariable n))
    ∧ scriptProblem = .ok scriptProblemValue := by
  refine ⟨?_, ?_, ?_, ?_, rfl⟩
  · intro p name lb ub h
    simp [OptimizationProblem.add_variable, h]
  · intro p name lb ub h hb
    simp [OptimizationProblem.add_variable, h, hb]
  · intro p names coefficients h
    simp [OptimizationProblem.add_linear_constraint, h]
  · intro p names coefficients hlen hex
    have hsome : (names.find? (fun n => !(p.hasVar n))).isSome := by
      rw [List.find?_isSome]
      obtain ⟨n, hn, hfalse⟩ := hex
      exact ⟨n, hn, by simp [hfalse]⟩
    obtain ⟨n, hfind⟩ := Option.isSome_iff_exists.mp hsome
    have hmem := List.mem_of_find?_eq_some hfind
    have hprop := List.find?_some hfind
    refine ⟨n, hmem, by simpa using hprop, ?_⟩
    simp [OptimizationProblem.add_linear_constraint, hlen, hfind]

theorem c5_registry_error_contract_witness :
    scriptProblemValue.add_variable "cycle_time" 0 1
        = .error (.duplicateName "cycle_time")
    ∧ scriptProblemValue.add_variable "fresh" 5 5 = .error (.invalidBounds "fresh")
    ∧ scriptProblemValue.add_linear_constraint ["cycle_time"] [1, 2]
        = .error .lengthMismatch
    ∧ (∃ n ∈ ["ghost"], scriptProblemValue.hasVar n = false
        ∧ scriptProblemValue.add_linear_constraint ["ghost"] [1]
            = .error (.unknownVariable n)) := by
  obtain ⟨h1, h2, h3, h4, -⟩ := c5_registry_error_contract
  exact ⟨h1 _ _ 0 1 (by decide), h2 _ _ 5 5 (by decide) (by decide),
    h3 _ _ _ (by decide),
    h4 scriptProblemValue ["ghost"] [1] rfl ⟨"ghost", by simp, by decide⟩⟩

/-- C6: with `ignore_failed` set, a failing candidate yields the sentinel
infeasible marker and the stage never raises; the script configures the
fractionation stage with `ignore_failed=False` (with
`purity_required=[0.95, 0.95]` and `allow_empty_fractions=False`), so a
fractionation failure propagates as `EvaluationFailedError`. -/
theorem c6_ignore_failed_policy :
    (∀ (α : Type) (kw : FracKwargs) (msg : String),
        kw.ignore_failed = true →
        runFractionationStage kw (Except.error msg : Except String α)
          = .ok .infeasible)
    ∧ (∀ (α : Type) (kw : FracKwargs) (result : Except String α),
        kw.ignore_failed = true →
        ∃ out, runFractionationStage kw result = .ok out)
    ∧ scriptFracKwargs.ignore_failed = false
    ∧ scriptFracKwargs.purity_required = [(0.95 : Rat), (0.95 : Rat)]
    ∧ scriptFracKwargs.allow_empty_fractions = false
    ∧ (∀ (α : Type) (msg : String),
        runFractionationStage (α := α) scriptFracKwargs (Except.error msg)
          = .error (.evaluationFailed msg)) := by
  refine ⟨?_, ?_, rfl, rfl, rfl, ?_⟩
  · intro α kw msg h
    simp [runFractionationStage, h]
  · intro α kw result h
    cases result with
    | ok a => exact ⟨.ok a, rfl⟩
    | error msg => exact ⟨.infeasible, by simp [runFractionationStage, h]⟩
  · intro α msg
    rfl

theorem c6_ignore_failed_policy_witness :
    runFractionationStage (⟨[], true, true⟩ : FracKwargs)
        (Except.error "stage failed" : Except String Nat) = .ok .infeasible
    ∧ runFractionationStage scriptFracKwargs
        (Except.error "stage failed" : Except String Nat)
          = .error (.evaluationFailed "stage failed") := by
  obtain ⟨h1, -, -, -, -, h6⟩ := c6_ignore_failed_policy
  exact ⟨h1 Nat _ _ rfl, h6 Nat _⟩

/-- C7: with `use_checkpoint=True` and a prior checkpoint present, Init
resumes population and generation counter from it rather than seeding a
fresh population; a checkpoint is persisted at every generation boundary,
so resuming after N completed generations continues at generation N+1,
never at generation 0. -/
theorem c7_checkpoint_resume :
    (∀ (cp : Checkpoint) (seed : List (List Rat)),
        initState true (some cp) seed = cp)
    ∧ (∀ seed : List (List Rat), initState true none seed = ⟨seed, 0⟩)
    ∧ (∀ (evolve : List (List Rat) → List (List Rat)) (n_max N : Nat)
        (cp : Checkpoint) (seed : List (List Rat)),
        cp.generation = N → N < n_max →
        ((driverCheckpoints evolve n_max (initState true (some cp) seed)).map
            (fun c => c.generation)) = List.range' (N + 1) (n_max - N)
        ∧ ((driverCheckpoints evolve n_max (initState true (some cp) seed)).map
            (fun c => c.generation)).head? = some (N + 1)
        ∧ ∀ g ∈ (driverCheckpoints evolve n_max (initState true (some cp) seed)).map
            (fun c => c.generation), N + 1 ≤ g) := by
  refine ⟨fun cp seed => rfl, fun seed => rfl, ?_⟩
  intro evolve n_max N cp seed hgen hlt
  have hinit : initState true (some cp) seed = cp := rfl
  have hmap : ((driverCheckpoints evolve n_max (initState true (some cp) seed)).map
      (fun c => c.generation)) = List.range' (N + 1) (n_max - N) := by
    rw [hinit, driverCheckpoints, persistedCheckpoints_generations, hgen]
  refine ⟨hmap, ?_, ?_⟩
  · rw [hmap]
    have hpos : n_max - N = (n_max - N - 1) + 1 :=
      (Nat.succ_pred_eq_of_pos (Nat.sub_pos_of_lt hlt)).symm
    rw [hpos, List.range'_succ]
    rfl
  · intro g hg
    rw [hmap] at hg
    exact (List.mem_range'_1.mp hg).1

theorem c7_checkpoint_resume_witness :
    initState true (some ⟨[[0]], 2⟩) [] = (⟨[[(0 : Rat)]], 2⟩ : Checkpoint)
    ∧ ((driverCheckpoints (fun p => p) 3 (initState true (some ⟨[[(0 : Rat)]], 2⟩) [])).map
        (fun c => c.generation)).head? = some 3 := by
  obtain ⟨h1, -, h3⟩ := c7_checkpoint_resume
  exact ⟨h1 _ _,
    (h3 (fun p => p) 3 2 ⟨[[(0 : Rat)]], 2⟩ [] rfl (by decide)).2.1⟩

/-- C8: the `optimizer.optimize` call sits under the `__main__` guard, so
it executes exactly once when the file runs as a program and never when
the module is imported. -/
theorem c8_main_guard :
    (runModule false).1.optimize_calls = 0
    ∧ (runModule true).1.optimize_calls = 1
    ∧ (runModule true).2 = none :=
  ⟨rfl, rfl, rfl⟩

/-- C9: callbacks are side-effect-only observers invoked after evaluation:
a candidate's objective vector with callbacks registered equals the one
without, the script's callback merely produces a fractionation plot file
name, and its registration requires the two chain stages. -/
theorem c9_callback_frame :
    (∀ (objVec : List Rat → List Rat) (cbs : List (List Rat → String)) (x : List Rat),
        (evaluateWithCallbacks objVec cbs x).objective_vector
          = (evaluateWithCallbacks objVec [] x).objective_vector
        ∧ (evaluateWithCallbacks objVec cbs x).objective_vector = objVec x)
    ∧ (∀ d i e, callback d i e
        = d ++ "/" ++ i ++ "_" ++ e ++ "_fractionation.png")
    ∧ scriptProblemValue.callbacks
        = [⟨"callback", ["process_simulator", "frac_opt"]⟩] :=
  ⟨fun _ _ _ => ⟨rfl, rfl⟩, fun _ _ _ => rfl, rfl⟩

/-- C10: importing the module (running it with `__name__ ≠ '__main__'`)
fails with a `NameError` on `optimization_results`: the four result
statements sit at top level outside the guard while the name is bound
only inside it, so the optimize call never runs and the first result
statement raises. -/
theorem c10_import_name_error :
    runModule false = (⟨false, 0⟩, some (.nameError "optimization_results")) :=
  rfl

end BatchElution
